import Mathlib

/-!
Shallow embedding of codahale/geoip (src/geoip.go), a thin cgo binding
around the native libGeoIP library.

Native calls that cross the language boundary are modelled as oracle
functions passed in as parameters, and every operation additionally
returns the list of boundary calls it performed, in order, so that
claims about which native routines are invoked (and with which
arguments) are statable.  The C string marshalling (C.CString and the
deferred C.free) is elided: it carries the same string value across the
boundary and is not observable in any claim.

Constants below are the values of the GeoIPOptions enum and the charset
constant from the native GeoIP.h header, which src/geoip.go includes via
cgo; the header belongs to the external native library.
-/

def GEOIP_STANDARD : Nat := 0

def GEOIP_MEMORY_CACHE : Nat := 1

def GEOIP_CHECK_CACHE : Nat := 2

def GEOIP_INDEX_CACHE : Nat := 4

def GEOIP_MMAP_CACHE : Nat := 8

def GEOIP_CHARSET_UTF8 : Nat := 1

/-- CachingStrategy determines what data libGeoIP will cache.
In Go it is a named integer type with exactly three declared constants. -/
inductive CachingStrategy where
  | CacheDefault
  | CacheAll
  | CacheMRU
deriving DecidableEq, Repr

/-- The native integer value of each declared CachingStrategy constant:
CacheDefault = GEOIP_STANDARD, CacheAll = GEOIP_MEMORY_CACHE,
CacheMRU = GEOIP_INDEX_CACHE. -/
def CachingStrategy.val : CachingStrategy → Nat
  | .CacheDefault => GEOIP_STANDARD
  | .CacheAll => GEOIP_MEMORY_CACHE
  | .CacheMRU => GEOIP_INDEX_CACHE

/-- Options are the set of options provided by libGeoIP. -/
structure Options where
  Caching : CachingStrategy
  ReloadOnUpdate : Bool
  UseMMap : Bool
deriving DecidableEq, Repr

/-- func (o Options) bitmask() int32.  The source starts from the caching
constant and ORs in GEOIP_CHECK_CACHE and GEOIP_MMAP_CACHE under the two
booleans.  All values involved are small non-negative constants, so the
int32 arithmetic is modelled on Nat (no overflow is possible: the result
is at most 4 ||| 2 ||| 8 = 14). -/
def Options.bitmask (o : Options) : Nat :=
  let v := o.Caching.val
  let v := if o.ReloadOnUpdate then v ||| GEOIP_CHECK_CACHE else v
  let v := if o.UseMMap then v ||| GEOIP_MMAP_CACHE else v
  v

/-- var DefaultOptions: caches no data, reloads on updates, and uses MMAP. -/
def DefaultOptions : Options :=
  { Caching := .CacheDefault, ReloadOnUpdate := true, UseMMap := true }

/-- Record is a GeoIP record (the host-owned copy returned to callers).
Latitude and Longitude are float64 in Go (converted from the C float by
a lossless widening, modelled as identity on the value); AreaCode is a
Go int converted from the C int. -/
structure Record where
  CountryCode : String
  CountryCode3 : String
  CountryName : String
  Region : String
  City : String
  PostalCode : String
  Latitude : Float
  Longitude : Float
  AreaCode : Int
  ContinentCode : String

/-- The fields of the native GeoIPRecord struct that src/geoip.go reads,
as the Go-visible values after C.GoString / numeric conversion. -/
structure NativeRecord where
  country_code : String
  country_code3 : String
  country_name : String
  region : String
  city : String
  postal_code : String
  latitude : Float
  longitude : Float
  area_code : Int
  continent_code : String

/-- A call across the host/native boundary, recorded with the arguments
the Go code passes.  Handles are abstract identifiers (Nat); a C NULL
pointer is modelled as none. -/
inductive BoundaryCall where
  | GeoIP_open (filename : String) (flags : Nat)
  | GeoIP_set_charset (g : Option Nat) (charset : Nat)
  | SetFinalizer (g : Option Nat)
  | GeoIP_record_by_addr (g : Option Nat) (ip : String)
  | GeoIPRecord_delete
  | GeoIP_delete (g : Nat)
deriving DecidableEq, Repr

/-- DB is a GeoIP database: a handle wrapping the native pointer
(nil modelled as none). -/
structure DB where
  g : Option Nat
deriving DecidableEq, Repr

/-- func Open(filename string, opts *Options) (*DB, error).
The native GeoIP_open is an oracle returning the cgo two-value result:
the returned pointer and the errno-derived error (modelled as a String).
If err is non-nil the code returns (nil, err); otherwise it calls
GeoIP_set_charset with GEOIP_CHARSET_UTF8, registers a finalizer, and
returns the wrapped handle with a nil error. -/
def Open (native : String → Nat → Option Nat × Option String)
    (filename : String) (opts : Option Options) :
    Option DB × Option String × List BoundaryCall :=
  let o := opts.getD DefaultOptions
  let flags := o.bitmask
  match native filename flags with
  | (_, some e) => (none, some e, [BoundaryCall.GeoIP_open filename flags])
  | (g, none) =>
      (some ⟨g⟩, none,
        [BoundaryCall.GeoIP_open filename flags,
         BoundaryCall.GeoIP_set_charset g GEOIP_CHARSET_UTF8,
         BoundaryCall.SetFinalizer g])

/-- func (db *DB) Lookup(ip string) *Record.
The native GeoIP_record_by_addr is an oracle from the handle pointer and
the address string to an optional native record.  On nil the Go code
returns nil; otherwise it copies every field into a host-owned Record
and the deferred GeoIPRecord_delete releases the native record before
the call returns.  The first component is the receiver state after the
call: the source never assigns to db.g in Lookup, so it is db unchanged. -/
def DB.Lookup (native : Option Nat → String → Option NativeRecord)
    (db : DB) (ip : String) :
    DB × Option Record × List BoundaryCall :=
  match native db.g ip with
  | none => (db, none, [BoundaryCall.GeoIP_record_by_addr db.g ip])
  | some r =>
      (db,
        some { CountryCode := r.country_code
               CountryCode3 := r.country_code3
               CountryName := r.country_name
               Region := r.region
               City := r.city
               PostalCode := r.postal_code
               Latitude := r.latitude
               Longitude := r.longitude
               AreaCode := r.area_code
               ContinentCode := r.continent_code },
        [BoundaryCall.GeoIP_record_by_addr db.g ip,
         BoundaryCall.GeoIPRecord_delete])

/-- func (db *DB) Close() error.
The source calls C.GeoIP_delete(db.g) only when db.g is non-nil, then
unconditionally sets db.g to nil and returns a nil error.  The first
component is the receiver state after the call. -/
def DB.Close (db : DB) : DB × Option String × List BoundaryCall :=
  match db.g with
  | some h => (⟨none⟩, none, [BoundaryCall.GeoIP_delete h])
  | none => (⟨none⟩, none, [])

/-- Claim C1: for every Options value, bitmask equals the bitwise OR of the
caching constant, the GEOIP_CHECK_CACHE bit iff ReloadOnUpdate, and the
GEOIP_MMAP_CACHE bit iff UseMMap; the strategy bits are always present in
the result. -/
theorem options_bitmask_spec (o : Options) :
    o.bitmask =
      (o.Caching.val |||
        (if o.ReloadOnUpdate then GEOIP_CHECK_CACHE else 0) |||
        (if o.UseMMap then GEOIP_MMAP_CACHE else 0))
    ∧ (o.bitmask &&& GEOIP_CHECK_CACHE ≠ 0 ↔ o.ReloadOnUpdate = true)
    ∧ (o.bitmask &&& GEOIP_MMAP_CACHE ≠ 0 ↔ o.UseMMap = true)
    ∧ o.bitmask &&& o.Caching.val = o.Caching.val := by
  obtain ⟨c, r, m⟩ := o
  cases c <;> cases r <;> cases m <;> decide

/-- Claim C2: Close is idempotent.  For every handle, the first Close sets
the pointer to nil, errors nil, and issues the native delete exactly when
the pointer was non-nil; a second Close after a first Close issues no
native call at all, errors nil, and leaves the pointer nil. -/
theorem close_idempotent (db : DB) :
    (db.Close.1.g = none ∧ db.Close.2.1 = none
      ∧ db.Close.2.2 =
          (match db.g with
           | some h => [BoundaryCall.GeoIP_delete h]
           | none => []))
    ∧ db.Close.1.Close.2.2 = []
    ∧ db.Close.1.Close.2.1 = none
    ∧ db.Close.1.Close.1.g = none := by
  obtain ⟨g⟩ := db
  cases g <;> simp [DB.Close]

/-- Claim C10: Close always returns a nil error, for every handle in every
state. -/
theorem close_error_none (db : DB) : db.Close.2.1 = none := by
  obtain ⟨g⟩ := db
  cases g <;> simp [DB.Close]

/-- Claim C3: whenever the native per-address lookup returns no record,
Lookup returns nil, never a zero-valued record. -/
theorem lookup_absent (native : Option Nat → String → Option NativeRecord)
    (db : DB) (ip : String) (h : native db.g ip = none) :
    (db.Lookup native ip).2.1 = none := by
  simp [DB.Lookup, h]

/-- Witness for lookup_absent at a concrete oracle that finds nothing. -/
theorem lookup_absent_witness :
    (DB.Lookup (fun _ _ => none) ⟨some 1⟩ "8.8.8.8").2.1 = none :=
  lookup_absent (fun _ _ => none) ⟨some 1⟩ "8.8.8.8" rfl

/-- Claim C4: when the native open routine fails, Open returns a nil handle
and the underlying native error unmodified; and Open never returns both a
handle and an error. -/
theorem open_failure (native : String → Nat → Option Nat × Option String)
    (filename : String) (opts : Option Options) :
    (∀ e, (native filename (opts.getD DefaultOptions).bitmask).2 = some e →
        (Open native filename opts).1 = none
          ∧ (Open native filename opts).2.1 = some e)
    ∧ ¬((Open native filename opts).1.isSome
          ∧ (Open native filename opts).2.1.isSome) := by
  rcases hn : native filename (opts.getD DefaultOptions).bitmask with ⟨g, err⟩
  cases err <;> simp [Open, hn]

/-- Witness for open_failure at a concrete failing oracle. -/
theorem open_failure_witness :
    (Open (fun _ _ => (none, some "no such file")) "missing.dat" none).1 = none
    ∧ (Open (fun _ _ => (none, some "no such file")) "missing.dat" none).2.1 =
        some "no such file" :=
  (open_failure (fun _ _ => (none, some "no such file")) "missing.dat" none).1
    "no such file" rfl

/-- Claim C5: with opts absent, the configuration translated and passed to
the native open routine is DefaultOptions: no caching, reload-on-update
enabled, memory-mapping enabled; the first boundary call is GeoIP_open
with exactly that bitmask. -/
theorem open_default_options (native : String → Nat → Option Nat × Option String)
    (filename : String) :
    DefaultOptions.Caching = CachingStrategy.CacheDefault
    ∧ DefaultOptions.ReloadOnUpdate = true
    ∧ DefaultOptions.UseMMap = true
    ∧ DefaultOptions.bitmask = (GEOIP_STANDARD ||| GEOIP_CHECK_CACHE ||| GEOIP_MMAP_CACHE)
    ∧ (Open native filename none).2.2.head? =
        some (BoundaryCall.GeoIP_open filename DefaultOptions.bitmask) := by
  refine ⟨rfl, rfl, rfl, by decide, ?_⟩
  rcases hn : native filename DefaultOptions.bitmask with ⟨g, err⟩
  cases err <;> simp [Open, hn]

/-- Claim C6: on every success path of Open, the native set-charset routine
is invoked with the UTF-8 constant on the returned handle before Open
returns. -/
theorem open_sets_utf8_charset (native : String → Nat → Option Nat × Option String)
    (filename : String) (opts : Option Options) (db : DB)
    (h : (Open native filename opts).1 = some db) :
    BoundaryCall.GeoIP_set_charset db.g GEOIP_CHARSET_UTF8 ∈
      (Open native filename opts).2.2 := by
  rcases hn : native filename (opts.getD DefaultOptions).bitmask with ⟨g, err⟩
  cases err with
  | some e => simp [Open, hn] at h
  | none =>
      simp [Open, hn] at h ⊢
      subst h
      simp

/-- Witness for open_sets_utf8_charset at a concrete successful oracle. -/
theorem open_sets_utf8_charset_witness :
    BoundaryCall.GeoIP_set_charset (some 7) GEOIP_CHARSET_UTF8 ∈
      (Open (fun _ _ => (some 7, none)) "GeoIPCity.dat" none).2.2 :=
  open_sets_utf8_charset (fun _ _ => (some 7, none)) "GeoIPCity.dat" none
    ⟨some 7⟩ rfl

/-- Claim C7: when the native lookup returns a record, Lookup returns a
host-owned Record with all ten fields copied from the native record, and
the native record is released (GeoIPRecord_delete appears in the boundary
trace) before Lookup returns. -/
theorem lookup_copies_all_fields (native : Option Nat → String → Option NativeRecord)
    (db : DB) (ip : String) (r : NativeRecord) (h : native db.g ip = some r) :
    (db.Lookup native ip).2.1 =
      some { CountryCode := r.country_code
             CountryCode3 := r.country_code3
             CountryName := r.country_name
             Region := r.region
             City := r.city
             PostalCode := r.postal_code
             Latitude := r.latitude
             Longitude := r.longitude
             AreaCode := r.area_code
             ContinentCode := r.continent_code }
    ∧ (db.Lookup native ip).2.2 =
        [BoundaryCall.GeoIP_record_by_addr db.g ip,
         BoundaryCall.GeoIPRecord_delete] := by
  simp [DB.Lookup, h]

/-- Witness for lookup_copies_all_fields at a concrete native record. -/
theorem lookup_copies_all_fields_witness :
    (DB.Lookup
        (fun _ _ => some { country_code := "US"
                           country_code3 := "USA"
                           country_name := "United States"
                           region := "CA"
                           city := "Mountain View"
                           postal_code := "94043"
                           latitude := 37.4
                           longitude := -122.1
                           area_code := 650
                           continent_code := "NA" })
        ⟨some 3⟩ "1.2.3.4").2.1 =
      some { CountryCode := "US"
             CountryCode3 := "USA"
             CountryName := "United States"
             Region := "CA"
             City := "Mountain View"
             PostalCode := "94043"
             Latitude := 37.4
             Longitude := -122.1
             AreaCode := 650
             ContinentCode := "NA" } :=
  (lookup_copies_all_fields
      (fun _ _ => some { country_code := "US"
                         country_code3 := "USA"
                         country_name := "United States"
                         region := "CA"
                         city := "Mountain View"
                         postal_code := "94043"
                         latitude := 37.4
                         longitude := -122.1
                         area_code := 650
                         continent_code := "NA" })
      ⟨some 3⟩ "1.2.3.4" _ rfl).1

/-- Claim C9: the handle lifecycle is exactly unopened, then Open, then
open, then Close, then closed.  A successful Open wraps exactly the fresh
native handle; Lookup never changes the handle state; Close always moves
the state to closed; and a closed handle stays closed, with no further
native call, under every operation of this layer. -/
theorem handle_lifecycle
    (nOpen : String → Nat → Option Nat × Option String)
    (nRec : Option Nat → String → Option NativeRecord)
    (filename ip : String) (opts : Option Options) (db : DB) :
    (∀ d, (Open nOpen filename opts).1 = some d →
        d.g = (nOpen filename (opts.getD DefaultOptions).bitmask).1)
    ∧ (DB.Lookup nRec db ip).1 = db
    ∧ db.Close.1.g = none
    ∧ (db.g = none → db.Close.2.2 = [] ∧ db.Close.1.g = none) := by
  refine ⟨?_, ?_, ?_, ?_⟩
  · intro d hd
    rcases hn : nOpen filename (opts.getD DefaultOptions).bitmask with ⟨g, err⟩
    cases err with
    | some e => simp [Open, hn] at hd
    | none =>
        simp [Open, hn] at hd
        subst hd
        simp
  · rcases hr : nRec db.g ip with _ | r <;> simp [DB.Lookup, hr]
  · obtain ⟨g⟩ := db
    cases g <;> simp [DB.Close]
  · intro hg
    obtain ⟨g⟩ := db
    cases hg
    simp [DB.Close]

/-- Witness for handle_lifecycle at concrete oracles: a successful open
wraps handle 9, and a closed handle stays closed with no native call. -/
theorem handle_lifecycle_witness :
    DB.g ⟨some 9⟩ = some 9 ∧ (DB.Close ⟨none⟩).2.2 = [] :=
  ⟨(handle_lifecycle (fun _ _ => (some 9, none)) (fun _ _ => none)
      "city.dat" "1.2.3.4" none ⟨some 9⟩).1 ⟨some 9⟩ rfl,
   ((handle_lifecycle (fun _ _ => (some 9, none)) (fun _ _ => none)
      "city.dat" "1.2.3.4" none ⟨none⟩).2.2.2 rfl).1⟩
